import Mathlib

/-!
Verification development for the RAG orchestration core of the contract-agent
repository (`server/langgraph-agent.ts` and `server/supabase.ts`).

The TypeScript source is shallowly embedded: pure helpers become Lean
functions; stateful code (the embedding cache and the rate window) becomes
explicit state passing; each external collaborator (embedding provider,
completion provider, Supabase RPC, record store) is an explicit environment
value describing the outcome of its single invocation during the modelled
call.  JS 32-bit integer arithmetic is modelled as `Nat` arithmetic
`% 2^32`.  Embedding vectors (JS `number[]`) are modelled as `List Rat`.
-/

set_option maxRecDepth 8000

namespace ContractAgent

/-! ## Configuration constants (langgraph-agent.ts lines 63-68) -/

def CACHE_MAX_SIZE : Nat := 500

def EMBEDDING_RATE_LIMIT : Nat := 10

def RATE_LIMIT_WINDOW : Nat := 60000

/-! ## String hashing (langgraph-agent.ts `hashString`, lines 71-79)

The source computes `hash = ((hash << 5) - hash) + charCodeAt(i)` followed by
`hash = hash & hash` (a coercion to a signed 32-bit integer) and finally
renders the hash with `toString(36)`.  Per step this is congruent to
`31 * hash + char (mod 2^32)`; we keep the unsigned residue.  Two texts get
the same cache key in the source iff their residues agree, because the
int32 value determines the residue and `Number.prototype.toString` is
injective on int32 values, so keying the model's cache by the residue is
faithful.  `charCodeAt` returns UTF-16 code units; we use the unicode scalar
value, which coincides on the ASCII inputs considered here. -/

def hashString (s : String) : Nat :=
  s.toList.foldl (fun hash c => (31 * hash + c.toNat) % 4294967296) 0

/-! ## Embedding cache (langgraph-agent.ts lines 61-94)

The source cache is a JS `Map<string, number[]>` keyed by `hashString text`.
`Map.get` returns the entry for the key; `Map.set` overwrites in place when
the key is present (keeping insertion order) and appends otherwise.  We model
the map as an insertion-ordered association list. -/

abbrev EmbeddingCache := List (Nat × List Rat)

def mapGet (m : EmbeddingCache) (k : Nat) : Option (List Rat) :=
  (m.find? (fun p => p.1 == k)).map (fun p => p.2)

def mapSet (m : EmbeddingCache) (k : Nat) (v : List Rat) : EmbeddingCache :=
  if m.any (fun p => p.1 == k) then
    m.map (fun p => if p.1 == k then (k, v) else p)
  else
    m ++ [(k, v)]

/-- `getCachedEmbedding` (lines 81-84).  The source's `|| null` on a missing
entry is the `Option` result; a stored vector is never falsy in JS. -/
def getCachedEmbedding (m : EmbeddingCache) (text : String) : Option (List Rat) :=
  mapGet m (hashString text)

/-- `setCachedEmbedding` (lines 86-94).  When the cache has reached
`CACHE_MAX_SIZE`, the source deletes the first 50 insertion-order keys
(`Array.from(keys()).slice(0, 50)` then `delete`) before inserting. -/
def setCachedEmbedding (m : EmbeddingCache) (text : String) (embedding : List Rat) :
    EmbeddingCache :=
  let cacheKey := hashString text
  let m' :=
    if CACHE_MAX_SIZE ≤ m.length then
      let keysToDelete := (m.take 50).map (fun p => p.1)
      m.filter (fun p => !(keysToDelete.contains p.1))
    else m
  mapSet m' cacheKey embedding

/-! ## Rate window (langgraph-agent.ts lines 66-108) -/

/-- The pruning loop in `canMakeEmbeddingCall` (lines 97-104): timestamps
`t < now - RATE_LIMIT_WINDOW` are shifted off the front.  In JS the
subtraction can be negative, making the comparison false for every `t ≥ 0`;
truncated `Nat` subtraction yields the same comparisons. -/
def pruneTimestamps (now : Nat) (ts : List Nat) : List Nat :=
  ts.dropWhile (fun t => t < now - RATE_LIMIT_WINDOW)

/-- `canMakeEmbeddingCall` both prunes the shared timestamp list and reports
whether the pruned count is below the budget; we return the mutated list
alongside the boolean. -/
def canMakeEmbeddingCall (now : Nat) (ts : List Nat) : List Nat × Bool :=
  let pruned := pruneTimestamps now ts
  (pruned, pruned.length < EMBEDDING_RATE_LIMIT)

/-! ## `safeEmbedQuery` (langgraph-agent.ts lines 111-141) -/

/-- Outcome of one call to the external embedding provider
(`embeddings.embedQuery`): either a vector, or a thrown error carrying an
HTTP-like status and a message. -/
inductive ProviderOutcome where
  | ok (v : List Rat)
  | err (status : Option Nat) (msg : String)
deriving DecidableEq

structure EmbedResult where
  success : Bool
  embedding : Option (List Rat)
  error : Option String
deriving DecidableEq

/-- The shared mutable module state: the embedding cache and the rate-window
timestamp list. -/
structure EmbedState where
  cache : EmbeddingCache
  timestamps : List Nat
deriving DecidableEq

structure EmbedStep where
  result : EmbedResult
  state : EmbedState
  providerCalled : Bool
deriving DecidableEq

/-- Does `pat` occur at the head of `cs`? -/
def listStartsWith : List Char → List Char → Bool
  | [], _ => true
  | _ :: _, [] => false
  | p :: ps, c :: cs => p == c && listStartsWith ps cs

/-- Does `pat` occur contiguously anywhere in `cs`? -/
def listHasInfix (pat : List Char) : List Char → Bool
  | [] => pat.isEmpty
  | c :: rest => listStartsWith pat (c :: rest) || listHasInfix pat rest

/-- Substring containment, as JS `String.prototype.includes`. -/
def containsSubstr (s pat : String) : Bool :=
  listHasInfix pat.toList s.toList

/-- `safeEmbedQuery` (lines 111-141): cache lookup, then rate-limit check,
then `recordEmbeddingCall()` and the provider call; a thrown quota-style
error (status 429, or message containing "quota" or "Too Many Requests")
becomes the reason "Quota exceeded", any other thrown error propagates its
message.  `recordEmbeddingCall` appends `now` before the provider is invoked,
so the timestamp stays recorded even when the provider throws. -/
def safeEmbedQuery (provider : ProviderOutcome) (now : Nat) (st : EmbedState)
    (text : String) : EmbedStep :=
  match getCachedEmbedding st.cache text with
  | some cached => ⟨⟨true, some cached, none⟩, st, false⟩
  | none =>
    let pruned := (canMakeEmbeddingCall now st.timestamps).1
    if (canMakeEmbeddingCall now st.timestamps).2 then
      let ts := pruned ++ [now]
      match provider with
      | .ok embedding =>
          ⟨⟨true, some embedding, none⟩,
           ⟨setCachedEmbedding st.cache text embedding, ts⟩, true⟩
      | .err status msg =>
          if status == some 429 || containsSubstr msg "quota" ||
              containsSubstr msg "Too Many Requests" then
            ⟨⟨false, none, some "Quota exceeded"⟩, ⟨st.cache, ts⟩, true⟩
          else
            ⟨⟨false, none, some msg⟩, ⟨st.cache, ts⟩, true⟩
    else
      ⟨⟨false, none, some "Rate limit reached"⟩, ⟨st.cache, pruned⟩, false⟩

/-! ## Similarity-search wrapper (`server/supabase.ts`,
`searchTemplatesByEmbedding`; both variants in the repository are
behaviourally identical)

The wrapper delegates to one Supabase RPC (`match_templates`).  The RPC can
throw (transport failure), return `{error}` (remote error), or return
`{data}` where `data` may be null or a row list; `data || []` normalises a
null row set. -/

structure MatchRow where
  template_id : String
  similarity : Rat
  content : String
deriving DecidableEq

inductive RpcOutcome where
  | ok (rows : Option (List MatchRow))
  | rpcError (msg : String)
  | throw (msg : String)
deriving DecidableEq

structure SearchResult where
  success : Bool
  data : List MatchRow
  error : Option String
deriving DecidableEq

structure SearchStep where
  result : SearchResult
  remoteCalled : Bool
deriving DecidableEq

/-- `searchTemplatesByEmbedding(queryEmbedding, matchThreshold, matchCount)`.
`clientConfigured` models `getSupabaseClient()` being non-null; when false
the function short-circuits before any remote call.  The caught-exception
branch uses the thrown error's message (`error instanceof Error` holds for
the errors the client throws).  The query embedding, threshold and count are
passed through to the RPC and not otherwise inspected. -/
def searchTemplatesByEmbedding (clientConfigured : Bool) (rpc : RpcOutcome)
    (queryEmbedding : List Rat) (matchThreshold : Rat) (matchCount : Nat) :
    SearchStep :=
  if !clientConfigured then
    ⟨⟨false, [],
      some "Supabase client not initialized. Check SUPABASE_URL and SUPABASE_KEY."⟩,
     false⟩
  else
    match rpc with
    | .rpcError msg =>
        ⟨⟨false, [],
          some ("Vector search failed: " ++ msg ++
            ". Ensure match_templates function exists in Supabase.")⟩, true⟩
    | .ok rows => ⟨⟨true, rows.getD [], none⟩, true⟩
    | .throw msg => ⟨⟨false, [], some msg⟩, true⟩

/-! ## Generation workflow: `retrieveTemplates` (langgraph-agent.ts lines
158-275)

The storage interface (`getTemplates`, `getTemplate`,
`incrementTemplateUsage`) and the Supabase availability check are supplied by
the environment.  Storage operations are modelled as total (the outer
`try/catch` fallback at lines 254-274, reachable only by a thrown storage or
search exception, is therefore not exercised by the model).  Usage-counter
increments are collected as the ordered list of template ids passed to
`incrementTemplateUsage`. -/

structure Template where
  id : String
  title : String
  content : String
deriving DecidableEq

structure GenRetrieveEnv where
  templates : List Template
  supabaseAvailable : Bool
  provider : ProviderOutcome
  now : Nat
  embedSt : EmbedState
  rpc : RpcOutcome
  getTemplate : String → Option Template

/-- A `Partial<ContractGenerationState>` update: `none` in an `Option` field
means the field is absent from the returned object (the LangGraph channel
keeps its previous value).  `error` is `Option` because the source writes
`error: null` on success paths. -/
structure GenRetrieveUpd where
  templateContent : Option String
  templateId : Option String
  relevantTemplates : Option (List MatchRow)
  useRag : Option Bool
  step : String
  error : Option String
deriving DecidableEq

def errUpd (msg : String) : GenRetrieveUpd :=
  ⟨none, none, none, none, "error", some msg⟩

def goUpd (content id : String) (rel : List MatchRow) (rag : Bool) : GenRetrieveUpd :=
  ⟨some content, some id, some rel, some rag, "generate", none⟩

structure GenRetrieveStep where
  upd : GenRetrieveUpd
  increments : List String
  embedSt : EmbedState

/-- `retrieveTemplates`: no templates ⇒ error; Supabase unavailable ⇒ first
template, no RAG, no usage increment; embedding failure ⇒ first template
with a usage increment; search failure or zero matches ⇒ first template with
a usage increment; stale top match (id not resolvable in storage) ⇒ first
template with a usage increment, keeping the candidate list; otherwise the
resolved top-match template with `useRag = true` and a usage increment. -/
def retrieveTemplates (env : GenRetrieveEnv) (proposal : String) : GenRetrieveStep :=
  match env.templates with
  | [] => ⟨errUpd "No templates available. Please upload templates first.", [], env.embedSt⟩
  | t0 :: _ =>
    if !env.supabaseAvailable then
      ⟨goUpd t0.content t0.id [] false, [], env.embedSt⟩
    else
      let es := safeEmbedQuery env.provider env.now env.embedSt proposal
      match es.result.success, es.result.embedding with
      | true, some embedding =>
        let sr := searchTemplatesByEmbedding env.supabaseAvailable env.rpc
          embedding ((3 : Rat) / 10) 5
        match sr.result.success, sr.result.data with
        | true, bestMatch :: restData =>
          (match env.getTemplate bestMatch.template_id with
          | none =>
              ⟨goUpd t0.content t0.id (bestMatch :: restData) false, [t0.id], es.state⟩
          | some template =>
              ⟨goUpd template.content template.id (bestMatch :: restData) true,
               [template.id], es.state⟩)
        | _, _ => ⟨goUpd t0.content t0.id [] false, [t0.id], es.state⟩
      | _, _ => ⟨goUpd t0.content t0.id [] false, [t0.id], es.state⟩

/-- Does the modelled RPC outcome make `retrieveTemplates`'s search step fail
or return zero matches (`!searchResult.success || searchResult.data.length
=== 0`)? -/
def rpcFailsOrEmpty : RpcOutcome → Bool
  | .ok rows => (rows.getD []).isEmpty
  | .rpcError _ => true
  | .throw _ => true

/-! ## Generation workflow: `generateContract` and the graph (lines 277-353)

`generateContract` builds a prompt from the state, invokes the completion
provider once, and persists a new contract with status "draft" and metadata
recording the reference template, the RAG flag and the candidate count.  The
prompt string itself only feeds the completion provider, which the
environment abstracts, so its assembly is not modelled. -/

structure ContractRecord where
  title : String
  content : String
  contractType : String
  status : String
  parties : List String
  generatedFrom : Option String
  ragEnabled : Bool
  ragTemplatesUsed : Nat
deriving DecidableEq

structure ProduceEnv where
  llm : Except String String
  newContractId : String

structure GenerateUpd where
  generatedContent : Option String
  contractId : Option String
  step : String
  error : Option String
deriving DecidableEq

structure GenerateStep where
  upd : GenerateUpd
  created : List ContractRecord
deriving DecidableEq

structure GenInput where
  proposal : String
  contractTitle : String
  contractType : String
  parties : List String

def generateContract (penv : ProduceEnv) (input : GenInput)
    (templateId : Option String) (useRag : Bool) (relCount : Nat) : GenerateStep :=
  match penv.llm with
  | .error e => ⟨⟨none, none, "error", some e⟩, []⟩
  | .ok generatedContent =>
      ⟨⟨some generatedContent, some penv.newContractId, "complete", none⟩,
       [⟨input.contractTitle, generatedContent, input.contractType, "draft",
         input.parties, templateId, useRag, relCount⟩]⟩

structure GenRunStep where
  step : String
  error : Option String
  increments : List String
  created : List ContractRecord
  generateRan : Bool
deriving DecidableEq

/-- The compiled generation graph (lines 344-353): START → retrieve; the
conditional edge runs `generate` exactly when the retrieve update set
`step = "generate"`, otherwise the workflow ends with retrieve's state. -/
def runGenerationWorkflow (env : GenRetrieveEnv) (penv : ProduceEnv)
    (input : GenInput) : GenRunStep :=
  let r := retrieveTemplates env input.proposal
  if r.upd.step = "generate" then
    let g := generateContract penv input (r.upd.templateId)
      (r.upd.useRag.getD false) ((r.upd.relevantTemplates.getD []).length)
    ⟨g.upd.step, g.upd.error, r.increments, g.created, true⟩
  else
    ⟨r.upd.step, r.upd.error, r.increments, [], false⟩

/-! ## Validation workflow: `validateContract` (langgraph-agent.ts lines
667-843)

The validate node builds a mode-specific prompt (pure string formatting that
only feeds the completion provider, abstracted by the environment), calls the
completion provider once, extracts the first JSON object from the raw
response with the regex `\x7b[\s\S]*\x7d`, parses it with `JSON.parse`
(a platform builtin, modelled as an environment capability), maps the
judgment status to a persisted contract status when a contract id is
present, and classifies any thrown error into a message.  Contract status
updates (`storage.updateContract(id, {status})`) are collected as
`(id, status)` pairs. -/

def lbraceChar : Char := '\x7b'

def rbraceChar : Char := '\x7d'

def idxOfFirst (p : Char → Bool) : List Char → Option Nat
  | [] => none
  | c :: rest => if p c then some 0 else (idxOfFirst p rest).map (· + 1)

def idxOfLast (p : Char → Bool) (cs : List Char) : Option Nat :=
  (idxOfFirst p cs.reverse).map (fun k => cs.length - 1 - k)

/-- The match of the greedy regex `\x7b[\s\S]*\x7d` on `cs`: the span from
the first `\x7b` to the last `\x7d`, provided a `\x7d` occurs strictly after
the first `\x7b`; otherwise no match. -/
def extractJson (cs : List Char) : Option (List Char) :=
  match idxOfFirst (fun c => c == lbraceChar) cs,
        idxOfLast (fun c => c == rbraceChar) cs with
  | some i, some j => if i < j then some ((cs.drop i).take (j + 1 - i)) else none
  | _, _ => none

/-- The parsed judgment.  Only the `status` field drives control flow in the
modelled code (`issues` and `summary` are used for logging only). -/
structure Judgment where
  status : String
deriving DecidableEq

structure ValEnv where
  responseText : Except String String
  jsonParse : String → Except String Judgment

structure ValUpd where
  validationResult : Option Judgment
  step : String
  error : Option String
deriving DecidableEq

structure ValStep where
  upd : ValUpd
  statusUpdates : List (String × String)
deriving DecidableEq

/-- The catch-block classification (lines 822-842).  The `error?.cause?.code`
checks are subsumed into the message checks here: the environment reports a
thrown error by its message.  " fetch failed" ⇒ provider hint, context-length
⇒ size hint, otherwise the raw message. -/
def classifyValidationError (isOllama : Bool) (msg : String) : String :=
  if containsSubstr msg "fetch failed" then
    if isOllama then
      "Ollama connection failed. This may be due to: 1) Ollama not running (run 'ollama serve'), 2) Model not loaded (run 'ollama pull llama3.1:8b'), or 3) Request too large - try a smaller document."
    else
      "Gemini API connection failed. Please check your API key configuration."
  else if containsSubstr msg "context length" || containsSubstr msg "too long" then
    "Contract is too large for validation. Please try a smaller document."
  else msg

/-- `validateContract`: completion call, JSON extraction (a missing JSON
object raises `Invalid validation response format`, which the catch block
passes through), `JSON.parse`, status mapping `compliant → validated`,
`issues_found → pending`, otherwise `draft`, applied only when
`state.contractId` is non-null. -/
def validateContract (env : ValEnv) (isOllama : Bool) (contractId : Option String) :
    ValStep :=
  match env.responseText with
  | .error e => ⟨⟨none, "error", some (classifyValidationError isOllama e)⟩, []⟩
  | .ok responseText =>
    match extractJson responseText.toList with
    | none =>
        ⟨⟨none, "error",
          some (classifyValidationError isOllama "Invalid validation response format")⟩, []⟩
    | some jsonText =>
      match env.jsonParse (String.mk jsonText) with
      | .error e => ⟨⟨none, "error", some (classifyValidationError isOllama e)⟩, []⟩
      | .ok validationResult =>
        let newStatus :=
          if validationResult.status = "compliant" then "validated"
          else if validationResult.status = "issues_found" then "pending"
          else "draft"
        match contractId with
        | some cid => ⟨⟨some validationResult, "complete", none⟩, [(cid, newStatus)]⟩
        | none => ⟨⟨some validationResult, "complete", none⟩, []⟩

/-! ## Clause extraction: `extractKeyClauses` (langgraph-agent.ts lines
369-394)

The source runs the one global, case-insensitive pattern

  `(?:^|\n)((?:\d+\.?\s*)?(KEYWORDS)[^\n]*)\n([\s\S]*?)`
  `(?=\n(?:\d+\.?\s*)?[A-Z]\x7b3,\x7d|\n*$)`

repeatedly with `exec` and `lastIndex` advancing past each match.  The model
below reproduces the backtracking search match by match:

* `(?:^|\n)` tries the `^` anchor (position 0 only — no `m` flag) before
  consuming a `\n`.
* `(?:\d+\.?\s*)?` enumerates candidate end positions in the engine's
  depth-first order: digit-run lengths from longest to shortest, the literal
  dot before its absence, space runs from longest to empty, and finally the
  empty option.  (`\s` is modelled by the ASCII whitespace characters; the
  rarely-relevant non-ASCII JS whitespace code points are omitted.)
* The keyword alternation is tried in source order; all keywords are
  newline-free, so whichever alternative matches, `[^\n]*\n` then
  deterministically extends capture group 1 to the next newline (greedy
  shrinking of `[^\n]*` can never satisfy the following `\n`, so no further
  backtracking is possible there).
* The lazy `([\s\S]*?)` stops at the first position where the lookahead
  holds; `[A-Z]` under the `i` flag matches any ASCII letter, and the
  `\n*$` alternative always holds at the end of the input, so the lazy group
  always terminates. -/

/-- Tail-recursive list length with a forced accumulator (JS `.length` is a
constant-time field; matching on the accumulator keeps kernel evaluation on
long inputs shallow).  Agrees with `List.length` (`listLength_eq`). -/
def listLengthAux : Nat → List Char → Nat
  | n, [] => n
  | 0, _ :: rest => listLengthAux 1 rest
  | n + 1, _ :: rest => listLengthAux (n + 2) rest

def listLength (cs : List Char) : Nat := listLengthAux 0 cs

def isDigitChar (c : Char) : Bool := '0' ≤ c && c ≤ '9'

/-- JS `\s` restricted to ASCII: space, tab, line feed, vertical tab, form
feed, carriage return. -/
def isJsSpace (c : Char) : Bool :=
  c == ' ' || c == '\t' || c == '\n' || c == '\x0b' || c == '\x0c' || c == '\r'

/-- `[A-Z]` under the `i` flag: any ASCII letter. -/
def isAsciiLetter (c : Char) : Bool :=
  ('A' ≤ c && c ≤ 'Z') || ('a' ≤ c && c ≤ 'z')

/-- Length of the maximal run of characters satisfying `p` at the head. -/
def runLen (p : Char → Bool) : List Char → Nat
  | [] => 0
  | c :: rest => if p c then runLen p rest + 1 else 0

def digitRunAt (cs : List Char) (q : Nat) : Nat := runLen isDigitChar (cs.drop q)

def spaceRunAt (cs : List Char) (q : Nat) : Nat := runLen isJsSpace (cs.drop q)

/-- Candidate end positions of `\s*` starting at `q`, greedy order. -/
def spaceEnds (cs : List Char) (q : Nat) : List Nat :=
  ((List.range (spaceRunAt cs q + 1)).reverse).map (fun k => q + k)

/-- Candidate end positions of `\.?\s*` starting at `p`, greedy order: the
dot branch first, then the empty branch. -/
def dotSpaceEnds (cs : List Char) (p : Nat) : List Nat :=
  (if cs.get? p == some '.' then spaceEnds cs (p + 1) else []) ++ spaceEnds cs p

/-- Candidate end positions of `(?:\d+\.?\s*)?` starting at `q`, in the
engine's depth-first order; the final entry `q` is the empty option. -/
def numPrefixEnds (cs : List Char) (q : Nat) : List Nat :=
  let d := digitRunAt cs q
  ((List.range d).reverse.map (fun k => q + k + 1)).flatMap (dotSpaceEnds cs) ++ [q]

/-- The keyword alternation, in source order.  `DEFINITIONS?` contributes the
greedy `S` variant before the bare one. -/
def clauseKeywords : List String :=
  ["DEFINITIONS", "DEFINITION", "TERM", "TERMINATION", "PAYMENT", "COMPENSATION",
   "CONFIDENTIAL", "NON-DISCLOSURE", "INTELLECTUAL PROPERTY", "IP RIGHTS",
   "WARRANTY", "WARRANTIES", "LIABILITY", "INDEMNIF", "DISPUTE", "GOVERNING LAW",
   "AMENDMENT", "SIGNATURE"]

/-- Case-insensitive literal match of `kw` against the head of `rest`. -/
def litCI : List Char → List Char → Bool
  | [], _ => true
  | _ :: _, [] => false
  | k :: ks, c :: cs => k.toLower == c.toLower && litCI ks cs

def keywordAt (cs : List Char) (r : Nat) : Bool :=
  clauseKeywords.any (fun kw => litCI kw.toList (cs.drop r))

def findNewlineAux : List Char → Nat → Option Nat
  | [], _ => none
  | c :: rest, 0 => if c == '\n' then some 0 else findNewlineAux rest 1
  | c :: rest, i + 1 => if c == '\n' then some (i + 1) else findNewlineAux rest (i + 2)

/-- Index of the first newline at or after `i`, if any. -/
def findNewline (cs : List Char) (i : Nat) : Option Nat :=
  findNewlineAux (cs.drop i) i

def firstSomeGen {α β : Type} (f : α → Option β) : List α → Option β
  | [] => none
  | a :: as =>
    match f a with
    | some b => some b
    | none => firstSomeGen f as

/-- Attempt `(?:\d+\.?\s*)?KW[^\n]*\n` at position `q`; on success, return
the position of the newline that ends capture group 1. -/
def matchHeadAt (cs : List Char) (q : Nat) : Option Nat :=
  firstSomeGen
    (fun r => if keywordAt cs r then findNewline cs r else none)
    (numPrefixEnds cs q)

/-- Does `\n*$` hold at `e`? -/
def allNewlinesFrom (cs : List Char) (e : Nat) : Bool :=
  (cs.drop e).all (fun c => c == '\n')

/-- The lookahead `(?=\n(?:\d+\.?\s*)?[A-Z]\x7b3,\x7d|\n*$)` at `e` (only
existence of a parse matters inside a lookahead). -/
def lookaheadAt (cs : List Char) (e : Nat) : Bool :=
  (match cs.drop e with
   | '\n' :: _ =>
       (numPrefixEnds cs (e + 1)).any (fun r =>
         match cs.drop r with
         | a :: b :: c :: _ => isAsciiLetter a && isAsciiLetter b && isAsciiLetter c
         | _ => false)
   | _ => false)
  || allNewlinesFrom cs e

/-- End position of the lazy group 2 starting at `start`: the first position
at which the lookahead holds (`start ≤ cs.length`; the position `cs.length`
always qualifies via `\n*$`). -/
def lazyGroupEnd (cs : List Char) (start : Nat) : Nat :=
  match (List.range' start (listLength cs + 1 - start)).find? (lookaheadAt cs) with
  | some e => e
  | none => listLength cs

def sliceList (cs : List Char) (a b : Nat) : List Char := (cs.drop a).take (b - a)

/-- One match attempt anchored at scan position `p`: `(?:^|\n)` tries the
`^` anchor (only at 0) before consuming a newline; on success, returns
capture groups 1 and 2 and the new `lastIndex`. -/
def tryMatchAt (cs : List Char) (p : Nat) : Option (List Char × List Char × Nat) :=
  let starts : List Nat :=
    if p = 0 then
      [0] ++ (if cs.get? 0 == some '\n' then [1] else [])
    else if cs.get? p == some '\n' then [p + 1] else []
  match firstSomeGen (fun q => (matchHeadAt cs q).map (fun nl => (q, nl))) starts with
  | none => none
  | some (q, nl) =>
    let e := lazyGroupEnd cs (nl + 1)
    some (sliceList cs q nl, sliceList cs (nl + 1) e, e)

/-- The `exec` loop: scan start positions from `lastIndex` upward, emit the
match, and continue from the match's end.  Each match ends strictly after
its scan position, so `cs.length + 1` rounds of fuel suffice. -/
def execAllAux (cs : List Char) : Nat → Nat → List (List Char × List Char)
  | 0, _ => []
  | fuel + 1, lastIndex =>
    match firstSomeGen (tryMatchAt cs) (List.range' lastIndex (listLength cs - lastIndex)) with
    | none => []
    | some (g1, g2, e) => (g1, g2) :: execAllAux cs fuel e

def execAll (cs : List Char) : List (List Char × List Char) :=
  execAllAux cs (listLength cs + 1) 0

/-- JS `String.prototype.trim` (ASCII whitespace, see `isJsSpace`). -/
def trimList (cs : List Char) : List Char :=
  ((cs.dropWhile isJsSpace).reverse.dropWhile isJsSpace).reverse

/-- `extractKeyClauses`: for each match, the trimmed heading line plus the
trimmed body truncated to 500 characters and an ellipsis; matches with an
empty trimmed body are skipped; if nothing was captured, the first 2000
characters of the raw content are returned. -/
def extractKeyClauses (content : String) : String :=
  let cs := content.toList
  let extractedClauses := (execAll cs).filterMap (fun m =>
    let clauseTitle := trimList m.1
    let clauseContent := (trimList m.2).take 500
    if clauseContent.isEmpty then none
    else some (String.mk (clauseTitle ++ '\n' :: clauseContent) ++ "..."))
  if extractedClauses.isEmpty then String.mk (cs.take 2000)
  else String.intercalate "\n\n" extractedClauses

/-! ## Concrete instances used to exercise the theorems -/

def emptyEmbedState : EmbedState := ⟨[], []⟩

def tpl0 : Template := ⟨"t1", "T1", "c1"⟩

def row0 : MatchRow := ⟨"t1", (41 : Rat) / 50, "c1"⟩

def rowStale : MatchRow := ⟨"zz", (41 : Rat) / 50, "zz-content"⟩

def lookupTpl0 : String → Option Template :=
  fun id => if id = "t1" then some tpl0 else none

def envRagHit : GenRetrieveEnv :=
  ⟨[tpl0], true, .ok [1], 0, emptyEmbedState, .ok (some [row0]), lookupTpl0⟩

def envNoTemplates : GenRetrieveEnv :=
  ⟨[], false, .ok [1], 0, emptyEmbedState, .ok none, fun _ => none⟩

def envNoSupabase : GenRetrieveEnv :=
  ⟨[tpl0], false, .ok [1], 0, emptyEmbedState, .ok none, lookupTpl0⟩

def envEmbedFail : GenRetrieveEnv :=
  ⟨[tpl0], true, .err none "boom", 0, emptyEmbedState, .ok none, lookupTpl0⟩

def envSearchEmpty : GenRetrieveEnv :=
  ⟨[tpl0], true, .ok [1], 0, emptyEmbedState, .ok (some []), lookupTpl0⟩

def envStaleMatch : GenRetrieveEnv :=
  ⟨[tpl0], true, .ok [1], 0, emptyEmbedState, .ok (some [rowStale]), fun _ => none⟩

def penv0 : ProduceEnv := ⟨.ok "generated text", "c-new"⟩

def input0 : GenInput := ⟨"proposal", "Title", "NDA", ["A", "B"]⟩

def rateFullState : EmbedState := ⟨[], List.replicate 10 0⟩

def valJson : String := "\x7b\"status\": \"compliant\"\x7d"

def envValCompliant : ValEnv :=
  ⟨.ok ("ok " ++ valJson ++ " done"),
   fun s => if s = valJson then .ok ⟨"compliant"⟩ else .error "Unexpected token"⟩

def envValNoJson : ValEnv :=
  ⟨.ok "I cannot produce a judgment for this document.",
   fun _ => .error "Unexpected token"⟩

def bigHeadingInput : String :=
  String.mk ("TERM ".toList ++ List.replicate 3000 'A' ++ "\nbody".toList)

/-! ## Helper lemmas -/

theorem dropWhile_eq_self_of_all_false {p : Nat → Bool} (l : List Nat)
    (h : ∀ x ∈ l, p x = false) : l.dropWhile p = l := by
  cases l with
  | nil => rfl
  | cons a rest => simp [List.dropWhile_cons, h a (by simp)]

theorem find?_map_overwrite (m : EmbeddingCache) (k : Nat) (v : List Rat) :
    (m.map (fun p => if p.1 == k then (k, v) else p)).find? (fun p => p.1 == k) =
      if m.any (fun p => p.1 == k) then some (k, v) else none := by
  induction m with
  | nil => rfl
  | cons p rest ih =>
    cases hp : (p.1 == k) with
    | true => simp [List.find?, hp]
    | false =>
      have hp' : ¬((p.1 == k) = true) := by simp [hp]
      simp only [List.map_cons]
      rw [if_neg hp',
          @List.find?_cons_of_neg _ (fun q => q.1 == k) p
            (rest.map fun q => if q.1 == k then (k, v) else q) hp', ih]
      simp only [List.any_cons, hp, Bool.false_or]

theorem mapGet_mapSet_self (m : EmbeddingCache) (k : Nat) (v : List Rat) :
    mapGet (mapSet m k v) k = some v := by
  unfold mapGet mapSet
  by_cases h : m.any (fun p => p.1 == k) = true
  · rw [if_pos h, find?_map_overwrite, if_pos h]
    rfl
  · rw [if_neg h, List.find?_append]
    have hnone : m.find? (fun p => p.1 == k) = none := by
      rw [List.find?_eq_none]
      intro x hx hpx
      exact h (List.any_eq_true.mpr ⟨x, hx, hpx⟩)
    rw [hnone]
    simp [List.find?]

theorem getCached_after_set (m : EmbeddingCache) (t t' : String) (v : List Rat)
    (h : hashString t' = hashString t) :
    getCachedEmbedding (setCachedEmbedding m t v) t' = some v := by
  unfold getCachedEmbedding setCachedEmbedding
  rw [h]
  exact mapGet_mapSet_self _ _ _

/-- Exhaustive description of one `safeEmbedQuery` call: a cache hit, a fresh
successful provider call, or a failure. -/
theorem safeEmbedQuery_cases (p : ProviderOutcome) (now : Nat) (st : EmbedState)
    (text : String) :
    (∃ v, getCachedEmbedding st.cache text = some v ∧
       safeEmbedQuery p now st text = ⟨⟨true, some v, none⟩, st, false⟩) ∨
    (∃ v, getCachedEmbedding st.cache text = none ∧ p = .ok v ∧
       safeEmbedQuery p now st text =
         ⟨⟨true, some v, none⟩,
          ⟨setCachedEmbedding st.cache text v,
           (canMakeEmbeddingCall now st.timestamps).1 ++ [now]⟩, true⟩) ∨
    (safeEmbedQuery p now st text).result.success = false := by
  cases hc : getCachedEmbedding st.cache text with
  | some v =>
    exact .inl ⟨v, rfl, by unfold safeEmbedQuery; rw [hc]⟩
  | none =>
    cases hcan : (canMakeEmbeddingCall now st.timestamps).2 with
    | false =>
      refine .inr (.inr ?_)
      unfold safeEmbedQuery
      simp [hc, hcan]
    | true =>
      cases p with
      | ok v =>
        refine .inr (.inl ⟨v, rfl, rfl, ?_⟩)
        unfold safeEmbedQuery
        simp [hc, hcan]
      | err status msg =>
        refine .inr (.inr ?_)
        unfold safeEmbedQuery
        simp only [hc, hcan]
        split
        · split <;> rfl
        · rfl

/-- A call that starts from a state whose cache already holds the key returns
the cached vector and changes nothing. -/
theorem safeEmbedQuery_hit (p : ProviderOutcome) (now : Nat) (st : EmbedState)
    (text : String) (v : List Rat)
    (h : getCachedEmbedding st.cache text = some v) :
    safeEmbedQuery p now st text = ⟨⟨true, some v, none⟩, st, false⟩ := by
  unfold safeEmbedQuery
  rw [h]

/-! ## Claim C4: rate limiting -/

/-- Claim C4: with the configured budget of `EMBEDDING_RATE_LIMIT = 10` calls
per `RATE_LIMIT_WINDOW = 60000` ms window, an uncached embedding request
arriving while at least 10 recorded call timestamps all fall inside the
window is answered `success = false` with the reason "Rate limit reached",
and the embedding provider is not invoked. -/
theorem safeEmbedQuery_rate_limited (provider : ProviderOutcome) (now : Nat)
    (st : EmbedState) (text : String)
    (hc : getCachedEmbedding st.cache text = none)
    (hN : EMBEDDING_RATE_LIMIT ≤ st.timestamps.length)
    (hw : ∀ t ∈ st.timestamps, now - RATE_LIMIT_WINDOW ≤ t) :
    (safeEmbedQuery provider now st text).result.success = false ∧
    (safeEmbedQuery provider now st text).result.error = some "Rate limit reached" ∧
    (safeEmbedQuery provider now st text).providerCalled = false := by
  have hprune : pruneTimestamps now st.timestamps = st.timestamps := by
    apply dropWhile_eq_self_of_all_false
    intro x hx
    simpa using Nat.not_lt.mpr (hw x hx)
  have hfull : (canMakeEmbeddingCall now st.timestamps).2 = false := by
    simp [canMakeEmbeddingCall, hprune, Nat.not_lt.mpr hN]
  unfold safeEmbedQuery
  simp [hc, hfull]

theorem safeEmbedQuery_rate_limited_witness :
    getCachedEmbedding rateFullState.cache "query" = none ∧
    EMBEDDING_RATE_LIMIT ≤ rateFullState.timestamps.length ∧
    (safeEmbedQuery (.ok [1]) 0 rateFullState "query").result.success = false ∧
    (safeEmbedQuery (.ok [1]) 0 rateFullState "query").result.error =
      some "Rate limit reached" ∧
    (safeEmbedQuery (.ok [1]) 0 rateFullState "query").providerCalled = false := by
  refine ⟨by decide, by decide, ?_⟩
  exact safeEmbedQuery_rate_limited (.ok [1]) 0 rateFullState "query" (by decide)
    (by decide) (by decide)

/-! ## Claim C5: cache idempotence -/

/-- Claim C5: after a successful `safeEmbedQuery` for `text`, an immediately
following `safeEmbedQuery` for the same `text` is a cache hit: it succeeds
with an identical vector, performs no provider call, and leaves the whole
state — including the rate window's timestamp list — unchanged, so at most
one provider call is issued across the two calls. -/
theorem safeEmbedQuery_cache_hit_second_call (p1 p2 : ProviderOutcome)
    (now1 now2 : Nat) (st : EmbedState) (text : String)
    (h1 : (safeEmbedQuery p1 now1 st text).result.success = true) :
    (safeEmbedQuery p2 now2 (safeEmbedQuery p1 now1 st text).state text).result.success
        = true ∧
    (safeEmbedQuery p2 now2 (safeEmbedQuery p1 now1 st text).state text).result.embedding
        = (safeEmbedQuery p1 now1 st text).result.embedding ∧
    (safeEmbedQuery p2 now2 (safeEmbedQuery p1 now1 st text).state text).providerCalled
        = false ∧
    (safeEmbedQuery p2 now2 (safeEmbedQuery p1 now1 st text).state text).state
        = (safeEmbedQuery p1 now1 st text).state := by
  rcases safeEmbedQuery_cases p1 now1 st text with
    ⟨v, hc, heq⟩ | ⟨v, hc, hp, heq⟩ | hfail
  · have hhit := safeEmbedQuery_hit p2 now2 st text v hc
    simp [heq, hhit]
  · have hget : getCachedEmbedding (setCachedEmbedding st.cache text v) text = some v :=
      getCached_after_set st.cache text text v rfl
    have hhit := safeEmbedQuery_hit p2 now2
      ⟨setCachedEmbedding st.cache text v,
       (canMakeEmbeddingCall now1 st.timestamps).1 ++ [now1]⟩ text v hget
    simp [heq, hhit]
  · rw [h1] at hfail
    cases hfail

theorem safeEmbedQuery_cache_hit_second_call_witness :
    (safeEmbedQuery (.ok [1]) 0 emptyEmbedState "abc").result.success = true ∧
    (safeEmbedQuery (.ok [2]) 5
        (safeEmbedQuery (.ok [1]) 0 emptyEmbedState "abc").state "abc").result.embedding
      = (safeEmbedQuery (.ok [1]) 0 emptyEmbedState "abc").result.embedding ∧
    (safeEmbedQuery (.ok [2]) 5
        (safeEmbedQuery (.ok [1]) 0 emptyEmbedState "abc").state "abc").providerCalled
      = false := by
  have h := safeEmbedQuery_cache_hit_second_call (.ok [1]) (.ok [2]) 0 5
    emptyEmbedState "abc" (by decide)
  exact ⟨by decide, h.2.1, h.2.2.1⟩

/-! ## Claim C10: hash collisions share one cache entry -/

/-- Claim C10: the cache key is `hashString` alone, so for two distinct texts
with colliding hashes, a successful `safeEmbedQuery t1` makes the following
`safeEmbedQuery t2` a cache hit: it succeeds with `t1`'s cached vector and
performs no provider call. -/
theorem safeEmbedQuery_hash_collision (p1 p2 : ProviderOutcome)
    (now1 now2 : Nat) (st : EmbedState) (t1 t2 : String)
    (hne : t1 ≠ t2) (hh : hashString t2 = hashString t1)
    (h1 : (safeEmbedQuery p1 now1 st t1).result.success = true) :
    (safeEmbedQuery p2 now2 (safeEmbedQuery p1 now1 st t1).state t2).result.success
        = true ∧
    (safeEmbedQuery p2 now2 (safeEmbedQuery p1 now1 st t1).state t2).result.embedding
        = (safeEmbedQuery p1 now1 st t1).result.embedding ∧
    (safeEmbedQuery p2 now2 (safeEmbedQuery p1 now1 st t1).state t2).providerCalled
        = false := by
  have hkey : ∀ m : EmbeddingCache, getCachedEmbedding m t2 = getCachedEmbedding m t1 := by
    intro m
    unfold getCachedEmbedding
    rw [hh]
  rcases safeEmbedQuery_cases p1 now1 st t1 with
    ⟨v, hc, heq⟩ | ⟨v, hc, hp, heq⟩ | hfail
  · have hhit := safeEmbedQuery_hit p2 now2 st t2 v ((hkey st.cache).trans hc)
    simp [heq, hhit]
  · have hget : getCachedEmbedding (setCachedEmbedding st.cache t1 v) t2 = some v :=
      getCached_after_set st.cache t1 t2 v hh
    have hhit := safeEmbedQuery_hit p2 now2
      ⟨setCachedEmbedding st.cache t1 v,
       (canMakeEmbeddingCall now1 st.timestamps).1 ++ [now1]⟩ t2 v hget
    simp [heq, hhit]
  · rw [h1] at hfail
    cases hfail

theorem safeEmbedQuery_hash_collision_witness :
    "Aa" ≠ "BB" ∧
    hashString "BB" = hashString "Aa" ∧
    (safeEmbedQuery (.ok [7]) 0 emptyEmbedState "Aa").result.success = true ∧
    (safeEmbedQuery (.ok [9]) 3
        (safeEmbedQuery (.ok [7]) 0 emptyEmbedState "Aa").state "BB").result.embedding
      = (safeEmbedQuery (.ok [7]) 0 emptyEmbedState "Aa").result.embedding ∧
    (safeEmbedQuery (.ok [9]) 3
        (safeEmbedQuery (.ok [7]) 0 emptyEmbedState "Aa").state "BB").providerCalled
      = false := by
  have h := safeEmbedQuery_hash_collision (.ok [7]) (.ok [9]) 0 3
    emptyEmbedState "Aa" "BB" (by decide) (by decide) (by decide)
  exact ⟨by decide, by decide, by decide, h.2.1, h.2.2⟩

/-! ## Claim C6: similarity-search wrapper error contract -/

/-- Claim C6: the similarity-search wrapper (i) short-circuits to
`success = false` with `data = []` before any remote call when the client is
not configured, (ii) maps a successful-but-empty remote row set (empty list
or null) to `success = true` with `data = []`, and (iii) catches every remote
error and transport exception, returning `success = false` with the error
message attached instead of throwing (the model is a total function — every
RPC outcome yields a structured result). -/
theorem searchTemplatesByEmbedding_contract :
    (∀ (rpc : RpcOutcome) (emb : List Rat) (th : Rat) (cnt : Nat),
      (searchTemplatesByEmbedding false rpc emb th cnt).result.success = false ∧
      (searchTemplatesByEmbedding false rpc emb th cnt).result.data = [] ∧
      (searchTemplatesByEmbedding false rpc emb th cnt).remoteCalled = false) ∧
    (∀ (emb : List Rat) (th : Rat) (cnt : Nat),
      (searchTemplatesByEmbedding true (.ok (some [])) emb th cnt).result =
        ⟨true, [], none⟩ ∧
      (searchTemplatesByEmbedding true (.ok none) emb th cnt).result =
        ⟨true, [], none⟩) ∧
    (∀ (msg : String) (emb : List Rat) (th : Rat) (cnt : Nat),
      (searchTemplatesByEmbedding true (.rpcError msg) emb th cnt).result.success
          = false ∧
      (searchTemplatesByEmbedding true (.rpcError msg) emb th cnt).result.error =
        some ("Vector search failed: " ++ msg ++
          ". Ensure match_templates function exists in Supabase.") ∧
      (searchTemplatesByEmbedding true (.throw msg) emb th cnt).result.success
          = false ∧
      (searchTemplatesByEmbedding true (.throw msg) emb th cnt).result.error =
        some msg) := by
  refine ⟨fun rpc emb th cnt => ?_, fun emb th cnt => ?_, fun msg emb th cnt => ?_⟩
  · exact ⟨rfl, rfl, rfl⟩
  · exact ⟨rfl, rfl⟩
  · exact ⟨rfl, rfl, rfl, rfl⟩

/-! ## Claim C2: RAG happy path in the generation retrieve phase -/

/-- Claim C2: when the template store is non-empty, the vector index is
configured, the embedding succeeds, the similarity search returns at least
one match, and the top match's template id resolves in the store, the
retrieve phase sets `useRag = true`, chooses the top match's template id,
moves to the generate step, and increments exactly that template's usage
counter once. -/
theorem retrieveTemplates_rag_success (env : GenRetrieveEnv) (proposal : String)
    (best : MatchRow) (rest : List MatchRow) (tpl : Template)
    (ht : env.templates ≠ [])
    (hs : env.supabaseAvailable = true)
    (he : (safeEmbedQuery env.provider env.now env.embedSt proposal).result.success = true)
    (hr : env.rpc = RpcOutcome.ok (some (best :: rest)))
    (hg : env.getTemplate best.template_id = some tpl)
    (hid : tpl.id = best.template_id) :
    (retrieveTemplates env proposal).upd.useRag = some true ∧
    (retrieveTemplates env proposal).upd.templateId = some best.template_id ∧
    (retrieveTemplates env proposal).upd.step = "generate" ∧
    (retrieveTemplates env proposal).increments = [best.template_id] := by
  obtain ⟨t0, ts, hts⟩ : ∃ t0 ts, env.templates = t0 :: ts := by
    cases h : env.templates with
    | nil => exact absurd h ht
    | cons a l => exact ⟨a, l, rfl⟩
  rcases safeEmbedQuery_cases env.provider env.now env.embedSt proposal with
    ⟨v, hc, heq⟩ | ⟨v, hc, hp, heq⟩ | hfail
  · simp [retrieveTemplates, hts, hs, heq, searchTemplatesByEmbedding, hr, hg, hid, goUpd]
  · simp [retrieveTemplates, hts, hs, heq, searchTemplatesByEmbedding, hr, hg, hid, goUpd]
  · rw [he] at hfail
    cases hfail

theorem retrieveTemplates_rag_success_witness :
    envRagHit.templates ≠ [] ∧
    (safeEmbedQuery envRagHit.provider envRagHit.now envRagHit.embedSt
      "proposal").result.success = true ∧
    (retrieveTemplates envRagHit "proposal").upd.useRag = some true ∧
    (retrieveTemplates envRagHit "proposal").upd.templateId = some row0.template_id ∧
    (retrieveTemplates envRagHit "proposal").upd.step = "generate" ∧
    (retrieveTemplates envRagHit "proposal").increments = [row0.template_id] := by
  have h := retrieveTemplates_rag_success envRagHit "proposal" row0 [] tpl0
    (by simp [envRagHit]) (by rfl) (by decide) (by rfl) (by rfl) (by rfl)
  exact ⟨by simp [envRagHit], by decide, h⟩

/-! ## Claim C7: generation workflow with an empty template store -/

/-- Claim C7: when the template store contains zero templates, the generation
workflow terminates in the error phase with the no-templates message, the
produce phase never runs, no contract artifact is created, and no usage
counter is incremented. -/
theorem generation_no_templates_error (env : GenRetrieveEnv) (penv : ProduceEnv)
    (input : GenInput) (h : env.templates = []) :
    (runGenerationWorkflow env penv input).step = "error" ∧
    (runGenerationWorkflow env penv input).error =
      some "No templates available. Please upload templates first." ∧
    (runGenerationWorkflow env penv input).generateRan = false ∧
    (runGenerationWorkflow env penv input).created = [] ∧
    (runGenerationWorkflow env penv input).increments = [] := by
  have hr : retrieveTemplates env input.proposal =
      ⟨errUpd "No templates available. Please upload templates first.", [], env.embedSt⟩ := by
    unfold retrieveTemplates
    rw [h]
  simp [runGenerationWorkflow, hr, errUpd]

theorem generation_no_templates_error_witness :
    envNoTemplates.templates = [] ∧
    (runGenerationWorkflow envNoTemplates penv0 input0).step = "error" ∧
    (runGenerationWorkflow envNoTemplates penv0 input0).error =
      some "No templates available. Please upload templates first." ∧
    (runGenerationWorkflow envNoTemplates penv0 input0).generateRan = false ∧
    (runGenerationWorkflow envNoTemplates penv0 input0).created = [] := by
  have h := generation_no_templates_error envNoTemplates penv0 input0 (by rfl)
  exact ⟨by rfl, h.1, h.2.1, h.2.2.1, h.2.2.2.1⟩

/-! ## Claim C9: usage-counter increments across the retrieve fallbacks -/

/-- Claim C9: in the generation retrieve phase, the fallbacks taken after an
embedding failure, after a search failure or zero matches, and after a stale
(unresolvable) top match all select the first stored template and increment
its usage counter, whereas the fallback taken when the vector index is not
configured selects the first template without incrementing any usage
counter. -/
theorem retrieveTemplates_fallback_usage :
    (∀ (env : GenRetrieveEnv) (proposal : String) (t0 : Template) (ts : List Template),
      env.templates = t0 :: ts → env.supabaseAvailable = false →
      (retrieveTemplates env proposal).increments = [] ∧
      (retrieveTemplates env proposal).upd.templateId = some t0.id ∧
      (retrieveTemplates env proposal).upd.useRag = some false) ∧
    (∀ (env : GenRetrieveEnv) (proposal : String) (t0 : Template) (ts : List Template),
      env.templates = t0 :: ts → env.supabaseAvailable = true →
      (safeEmbedQuery env.provider env.now env.embedSt proposal).result.success = false →
      (retrieveTemplates env proposal).increments = [t0.id] ∧
      (retrieveTemplates env proposal).upd.templateId = some t0.id ∧
      (retrieveTemplates env proposal).upd.useRag = some false) ∧
    (∀ (env : GenRetrieveEnv) (proposal : String) (t0 : Template) (ts : List Template),
      env.templates = t0 :: ts → env.supabaseAvailable = true →
      (safeEmbedQuery env.provider env.now env.embedSt proposal).result.success = true →
      rpcFailsOrEmpty env.rpc = true →
      (retrieveTemplates env proposal).increments = [t0.id] ∧
      (retrieveTemplates env proposal).upd.templateId = some t0.id ∧
      (retrieveTemplates env proposal).upd.useRag = some false) ∧
    (∀ (env : GenRetrieveEnv) (proposal : String) (t0 : Template) (ts : List Template)
       (best : MatchRow) (rest : List MatchRow),
      env.templates = t0 :: ts → env.supabaseAvailable = true →
      (safeEmbedQuery env.provider env.now env.embedSt proposal).result.success = true →
      env.rpc = RpcOutcome.ok (some (best :: rest)) →
      env.getTemplate best.template_id = none →
      (retrieveTemplates env proposal).increments = [t0.id] ∧
      (retrieveTemplates env proposal).upd.templateId = some t0.id ∧
      (retrieveTemplates env proposal).upd.useRag = some false ∧
      (retrieveTemplates env proposal).upd.relevantTemplates = some (best :: rest)) := by
  refine ⟨?_, ?_, ?_, ?_⟩
  · intro env proposal t0 ts hts hs
    simp [retrieveTemplates, hts, hs, goUpd]
  · intro env proposal t0 ts hts hs he
    rcases safeEmbedQuery_cases env.provider env.now env.embedSt proposal with
      ⟨v, hc, heq⟩ | ⟨v, hc, hp, heq⟩ | hfail
    · rw [heq] at he
      cases he
    · rw [heq] at he
      cases he
    · rcases hq : safeEmbedQuery env.provider env.now env.embedSt proposal with ⟨res, st', pc⟩
      rw [hq] at hfail he
      obtain ⟨s, e, er⟩ := res
      simp only at hfail he
      subst hfail
      simp [retrieveTemplates, hts, hs, hq, goUpd]
  · intro env proposal t0 ts hts hs he hrpc
    rcases safeEmbedQuery_cases env.provider env.now env.embedSt proposal with
      ⟨v, hc, heq⟩ | ⟨v, hc, hp, heq⟩ | hfail
    · cases hr : env.rpc with
      | ok rows =>
        rw [hr] at hrpc
        have hrows : rows.getD [] = [] := by
          simpa [rpcFailsOrEmpty] using hrpc
        cases rows with
        | none => simp [retrieveTemplates, hts, hs, heq, searchTemplatesByEmbedding, hr, goUpd]
        | some l =>
          have : l = [] := by simpa using hrows
          subst this
          simp [retrieveTemplates, hts, hs, heq, searchTemplatesByEmbedding, hr, goUpd]
      | rpcError msg =>
        simp [retrieveTemplates, hts, hs, heq, searchTemplatesByEmbedding, hr, goUpd]
      | throw msg =>
        simp [retrieveTemplates, hts, hs, heq, searchTemplatesByEmbedding, hr, goUpd]
    · cases hr : env.rpc with
      | ok rows =>
        rw [hr] at hrpc
        have hrows : rows.getD [] = [] := by
          simpa [rpcFailsOrEmpty] using hrpc
        cases rows with
        | none => simp [retrieveTemplates, hts, hs, heq, searchTemplatesByEmbedding, hr, goUpd]
        | some l =>
          have : l = [] := by simpa using hrows
          subst this
          simp [retrieveTemplates, hts, hs, heq, searchTemplatesByEmbedding, hr, goUpd]
      | rpcError msg =>
        simp [retrieveTemplates, hts, hs, heq, searchTemplatesByEmbedding, hr, goUpd]
      | throw msg =>
        simp [retrieveTemplates, hts, hs, heq, searchTemplatesByEmbedding, hr, goUpd]
    · rw [he] at hfail
      cases hfail
  · intro env proposal t0 ts best rest hts hs he hr hg
    rcases safeEmbedQuery_cases env.provider env.now env.embedSt proposal with
      ⟨v, hc, heq⟩ | ⟨v, hc, hp, heq⟩ | hfail
    · simp [retrieveTemplates, hts, hs, heq, searchTemplatesByEmbedding, hr, hg, goUpd]
    · simp [retrieveTemplates, hts, hs, heq, searchTemplatesByEmbedding, hr, hg, goUpd]
    · rw [he] at hfail
      cases hfail

theorem retrieveTemplates_fallback_usage_witness :
    ((retrieveTemplates envNoSupabase "proposal").increments = [] ∧
     (retrieveTemplates envNoSupabase "proposal").upd.templateId = some tpl0.id ∧
     (retrieveTemplates envNoSupabase "proposal").upd.useRag = some false) ∧
    ((retrieveTemplates envEmbedFail "proposal").increments = [tpl0.id] ∧
     (retrieveTemplates envEmbedFail "proposal").upd.templateId = some tpl0.id ∧
     (retrieveTemplates envEmbedFail "proposal").upd.useRag = some false) ∧
    ((retrieveTemplates envSearchEmpty "proposal").increments = [tpl0.id] ∧
     (retrieveTemplates envSearchEmpty "proposal").upd.templateId = some tpl0.id ∧
     (retrieveTemplates envSearchEmpty "proposal").upd.useRag = some false) ∧
    ((retrieveTemplates envStaleMatch "proposal").increments = [tpl0.id] ∧
     (retrieveTemplates envStaleMatch "proposal").upd.templateId = some tpl0.id ∧
     (retrieveTemplates envStaleMatch "proposal").upd.useRag = some false) := by
  refine ⟨?_, ?_, ?_, ?_⟩
  · exact retrieveTemplates_fallback_usage.1 envNoSupabase "proposal" tpl0 []
      (by rfl) (by rfl)
  · exact retrieveTemplates_fallback_usage.2.1 envEmbedFail "proposal" tpl0 []
      (by rfl) (by rfl) (by decide)
  · exact retrieveTemplates_fallback_usage.2.2.1 envSearchEmpty "proposal" tpl0 []
      (by rfl) (by rfl) (by decide) (by rfl)
  · have h := retrieveTemplates_fallback_usage.2.2.2 envStaleMatch "proposal" tpl0 []
      rowStale [] (by rfl) (by rfl) (by decide) (by rfl) (by rfl)
    exact ⟨h.1, h.2.1, h.2.2.1⟩

/-! ## Claim C3: validation with no JSON object in the response -/

/-- Claim C3: when the completion provider's response text contains no JSON
object, the validate phase ends in the error step with the
"Invalid validation response format" message (the validate node's only
outgoing edge is END, so this is the workflow's terminal state) and no
artifact status update is performed. -/
theorem validateContract_no_json_error (env : ValEnv) (isOllama : Bool)
    (contractId : Option String) (txt : String)
    (h1 : env.responseText = Except.ok txt)
    (h2 : extractJson txt.toList = none) :
    (validateContract env isOllama contractId).upd.step = "error" ∧
    (validateContract env isOllama contractId).upd.error =
      some "Invalid validation response format" ∧
    (validateContract env isOllama contractId).statusUpdates = [] := by
  have hclass : classifyValidationError isOllama "Invalid validation response format" =
      "Invalid validation response format" := by
    cases isOllama <;> rfl
  simp only [String.toList] at h2
  simp [validateContract, h1, h2, hclass]

theorem validateContract_no_json_error_witness :
    envValNoJson.responseText =
      Except.ok "I cannot produce a judgment for this document." ∧
    extractJson ("I cannot produce a judgment for this document.").toList = none ∧
    (validateContract envValNoJson true (some "c1")).upd.step = "error" ∧
    (validateContract envValNoJson true (some "c1")).upd.error =
      some "Invalid validation response format" ∧
    (validateContract envValNoJson true (some "c1")).statusUpdates = [] := by
  have h := validateContract_no_json_error envValNoJson true (some "c1")
    "I cannot produce a judgment for this document." (by rfl) (by decide)
  exact ⟨by rfl, by decide, h⟩

/-! ## Claim C8: judgment-status to artifact-status mapping -/

/-- Claim C8: when the validate phase parses a judgment, a non-null target id
gets its persisted artifact status updated to "validated" for a compliant
judgment, "pending" for issues_found, and "draft" for failed; with no target
id (ad-hoc uploaded content) no status update is performed. -/
theorem validateContract_status_mapping (env : ValEnv) (isOllama : Bool)
    (txt : String) (jsonText : List Char) (j : Judgment)
    (h1 : env.responseText = Except.ok txt)
    (h2 : extractJson txt.toList = some jsonText)
    (h3 : env.jsonParse (String.mk jsonText) = Except.ok j) :
    (∀ cid : String, j.status = "compliant" →
      (validateContract env isOllama (some cid)).statusUpdates = [(cid, "validated")]) ∧
    (∀ cid : String, j.status = "issues_found" →
      (validateContract env isOllama (some cid)).statusUpdates = [(cid, "pending")]) ∧
    (∀ cid : String, j.status = "failed" →
      (validateContract env isOllama (some cid)).statusUpdates = [(cid, "draft")]) ∧
    (validateContract env isOllama none).statusUpdates = [] := by
  simp only [String.toList] at h2
  refine ⟨fun cid hst => ?_, fun cid hst => ?_, fun cid hst => ?_, ?_⟩
  · simp [validateContract, h1, h2, h3, hst]
  · simp [validateContract, h1, h2, h3, hst]
  · simp [validateContract, h1, h2, h3, hst]
  · simp [validateContract, h1, h2, h3]

theorem validateContract_status_mapping_witness :
    extractJson ("ok " ++ valJson ++ " done").toList = some valJson.toList ∧
    envValCompliant.jsonParse (String.mk valJson.toList) =
      Except.ok (⟨"compliant"⟩ : Judgment) ∧
    (validateContract envValCompliant false (some "c1")).statusUpdates =
      [("c1", "validated")] ∧
    (validateContract envValCompliant false none).statusUpdates = [] := by
  have h := validateContract_status_mapping envValCompliant false
    ("ok " ++ valJson ++ " done") valJson.toList ⟨"compliant"⟩
    (by rfl) (by decide) (by rfl)
  exact ⟨by decide, by rfl, h.1 "c1" (by rfl), h.2.2.2⟩

/-! ## Claim C1: clause-extraction output bounds -/

theorem listLengthAux_eq (l : List Char) : ∀ n, listLengthAux n l = n + l.length := by
  induction l with
  | nil => intro n; cases n <;> simp [listLengthAux]
  | cons c rest ih =>
    intro n
    cases n with
    | zero => simp [listLengthAux, ih]; omega
    | succ m => simp [listLengthAux, ih]; omega

theorem listLength_eq (l : List Char) : listLength l = l.length := by
  simp [listLength, listLengthAux_eq]

theorem string_length_eq_listLength (s : String) : s.length = listLength s.toList := by
  rw [listLength_eq]
  rfl

/-- Claim C1, amended: on input in which the headline pattern finds no match,
`extractKeyClauses` returns exactly the first 2000 characters of the input
(the full text when shorter), so the 2000-character ceiling holds on that
branch.  The ceiling does not hold for inputs with recognized headlines
(see the counterexample): a matched heading line is kept whole, so its
length — and the number of matched clauses — is unbounded. -/
theorem extractKeyClauses_noHeadline (content : String)
    (h : execAll content.toList = []) :
    extractKeyClauses content = String.mk (content.toList.take 2000) ∧
    (extractKeyClauses content).length ≤ 2000 := by
  have hout : extractKeyClauses content = String.mk (content.toList.take 2000) := by
    simp only [String.toList] at h
    simp [extractKeyClauses, h]
  refine ⟨hout, ?_⟩
  rw [hout]
  have hlen : (String.mk (content.toList.take 2000)).length =
      (content.toList.take 2000).length := rfl
  rw [hlen, List.length_take]
  exact Nat.min_le_left _ _

theorem extractKeyClauses_noHeadline_witness :
    execAll ("hello world").toList = [] ∧
    extractKeyClauses "hello world" = String.mk (("hello world").toList.take 2000) ∧
    (extractKeyClauses "hello world").length ≤ 2000 := by
  have h := extractKeyClauses_noHeadline "hello world" (by decide)
  exact ⟨by decide, h.1, h.2⟩

/-- Claim C1 fails as stated: `bigHeadingInput` — a single recognized "TERM"
heading followed by 3000 characters on the same line and a short body —
makes `extractKeyClauses` return 3013 characters, beyond the configured
2000-character ceiling of the no-headline fallback (and indeed beyond any
fixed ceiling, by lengthening the heading line). -/
theorem extractKeyClauses_ceiling_counterexample :
    2000 < (extractKeyClauses bigHeadingInput).length := by
  have h : listLength (extractKeyClauses bigHeadingInput).toList = 3013 := by decide
  rw [string_length_eq_listLength, h]
  norm_num

end ContractAgent
